import Mathlib

/-!
# Verification of the dropsniperai product-discovery pipeline

A shallow embedding of the parts of the backend services that the
specification's testable properties talk about:

* `backend/services/competitor_spy.py` — `detect_store_changes` and the
  `scrape_shopify_store` pagination loop,
* `backend/services/ai_scanner.py` — `AIProductScanner._validate_product`,
  `AIProductScanner._make_basic_product`,
  `AIProductScanner.scan_trending_products`, `_call_openai_json`,
  `_enrich_images` / its per-product body,
* `backend/services/scanners.py` — `ProductScoutEngine.run_full_scan`'s
  merge step,
* `backend/services/scheduler.py` — `ScanScheduler.run_scheduled_scans`
  and `ScanScheduler.run_user_scan`.

Python dynamic values are modelled by the inductive `PyVal`; numbers are
exact rationals (binary floating-point representation error is not
modelled, and `round` is decimal round-half-even on the exact value).
A function that can raise an exception that escapes the translated code
returns `Option`/`Except`; `none`/`error` means "raises".  Network and
external-service effects are passed in as explicit oracle arguments.
-/

set_option maxRecDepth 100000

namespace DropSniper

/-- A Python runtime value, restricted to the shapes that flow through the
scanner pipeline: `None`, booleans, numbers, strings, lists and
string-keyed dicts. -/
inductive PyVal : Type where
  | none : PyVal
  | bool (b : Bool) : PyVal
  | int (n : ℤ) : PyVal
  | float (q : ℚ) : PyVal
  | str (s : String) : PyVal
  | list (xs : List PyVal) : PyVal
  | dict (xs : List (String × PyVal)) : PyVal

/-- A Python dict with string keys, in insertion order. -/
abbrev PyDict : Type := List (String × PyVal)

/-- First binding of key `k`, mirroring Python `d[k]` / `d.get(k)`. -/
def pyGet (d : PyDict) (k : String) : Option PyVal :=
  (d.find? (fun kv => kv.1 == k)).map (fun kv => kv.2)

/-- Python `d.get(k, dflt)`. -/
def dictGet (d : PyDict) (k : String) (dflt : PyVal) : PyVal :=
  (pyGet d k).getD dflt

/-- Python `d[k] = v`: replace the binding in place, or append a new one. -/
def setKey : PyDict → String → PyVal → PyDict
  | [], k, v => [(k, v)]
  | (k', v') :: rest, k, v =>
      if k' == k then (k, v) :: rest else (k', v') :: setKey rest k v

/-- Python truthiness (`bool(x)`). -/
def truthy : PyVal → Bool
  | .none => false
  | .bool b => b
  | .int n => decide (n ≠ 0)
  | .float q => decide (q ≠ 0)
  | .str s => decide (s ≠ "")
  | .list xs => !xs.isEmpty
  | .dict xs => !xs.isEmpty

/-- Python `a or b` (value-returning short-circuit disjunction). -/
def pyOr (a b : PyVal) : PyVal :=
  if truthy a then a else b

/-- Python `str.startswith(pre)`. -/
def strStartsWith (s pre : String) : Bool :=
  pre.toList.isPrefixOf s.toList

/-- Python `pat in s` (substring containment). -/
def strContains (s pat : String) : Bool :=
  decide (pat.toList <:+: s.toList)

/-- Numeric value of a digit list, most significant first. -/
def digitsToNat (ds : List Char) : ℕ :=
  ds.foldl (fun a c => a * 10 + (c.toNat - 48)) 0

/-- Body of the decimal parser: digits, an optional point, more digits.
Exponent and infinity forms accepted by Python `float` are out of the
pipeline's input space and are not modelled. -/
def parseFloatBody (cs : List Char) (sign : ℚ) : Option ℚ :=
  let ip := cs.takeWhile Char.isDigit
  let rest := cs.dropWhile Char.isDigit
  match rest with
  | [] => if ip.isEmpty then Option.none else some (sign * (digitsToNat ip : ℚ))
  | '.' :: fp =>
      if fp.all Char.isDigit && !(ip.isEmpty && fp.isEmpty) then
        some (sign * ((digitsToNat ip : ℚ) + (digitsToNat fp : ℚ) / (10 : ℚ) ^ fp.length))
      else Option.none
  | _ => Option.none

/-- Python `float(s)` for a decimal literal string; `none` is `ValueError`. -/
def parseFloatStr (s : String) : Option ℚ :=
  match s.toList with
  | '-' :: t => parseFloatBody t (-1)
  | '+' :: t => parseFloatBody t 1
  | cs => parseFloatBody cs 1

/-- Python `int(s)`; only an optionally signed digit string is accepted
(`int("5.5")` raises `ValueError`). -/
def parseIntStr (s : String) : Option ℤ :=
  match s.toList with
  | '-' :: t => if !t.isEmpty && t.all Char.isDigit then some (-(digitsToNat t : ℤ)) else Option.none
  | '+' :: t => if !t.isEmpty && t.all Char.isDigit then some ((digitsToNat t : ℤ)) else Option.none
  | cs => if !cs.isEmpty && cs.all Char.isDigit then some ((digitsToNat cs : ℤ)) else Option.none

/-- Truncation toward zero, the behaviour of Python `int(float)`. -/
def ratTrunc (q : ℚ) : ℤ :=
  if 0 ≤ q then ⌊q⌋ else -⌊-q⌋

/-- Python `float(x)`; `none` models the `ValueError`/`TypeError` raised on
non-numeric input. -/
def pyFloat : PyVal → Option ℚ
  | .none => Option.none
  | .bool b => some (if b then 1 else 0)
  | .int n => some (n : ℚ)
  | .float q => some q
  | .str s => parseFloatStr s
  | .list _ => Option.none
  | .dict _ => Option.none

/-- Python `int(x)`; `none` models the `ValueError`/`TypeError` raised on
non-numeric input. -/
def pyInt : PyVal → Option ℤ
  | .none => Option.none
  | .bool b => some (if b then 1 else 0)
  | .int n => some n
  | .float q => some (ratTrunc q)
  | .str s => parseIntStr s
  | .list _ => Option.none
  | .dict _ => Option.none

/-- Python `str(x)`.  The decimal rendering of floats and the repr of
containers are abstracted (no verified claim inspects them). -/
def pyStr : PyVal → String
  | .none => "None"
  | .bool b => if b then "True" else "False"
  | .int n => toString n
  | .float q => toString q
  | .str s => s
  | .list _ => "<list>"
  | .dict _ => "<dict>"

/-- Round half to even, the tie-breaking rule of Python `round`. -/
def roundHalfEven (q : ℚ) : ℤ :=
  let f : ℤ := ⌊q⌋
  let r : ℚ := q - (f : ℚ)
  if r < 1 / 2 then f
  else if 1 / 2 < r then f + 1
  else if f.emod 2 = 0 then f else f + 1

/-- Python `round(q, k)` on the exact rational value. -/
def pyRoundTo (q : ℚ) (k : ℕ) : ℚ :=
  (roundHalfEven (q * (10 : ℚ) ^ k) : ℚ) / (10 : ℚ) ^ k

/-! ## Storefront Diff Engine (`backend/services/competitor_spy.py`) -/

/-- One entry of the product list produced by `scrape_shopify_store`; the
diff engine reads only the mandatory `"name"` key, so the remaining keys
are irrelevant to `detect_store_changes`. -/
structure StoreProduct : Type where
  name : String

/-- The dict returned by `detect_store_changes`.  Python sets are modelled
by `Finset String`; `added_products`/`removed_products` are returned as
`list(...)` of those sets, which a `Finset` captures up to ordering. -/
structure ChangeSet : Type where
  added_products : Finset String
  removed_products : Finset String
  added_count : ℕ
  removed_count : ℕ
  has_changes : Bool

/-- `detect_store_changes(old_products, new_products)` from
`competitor_spy.py`: set difference of the stored name snapshot against
the names of the freshly pulled products. -/
def detect_store_changes (old_products : List String)
    (new_products : List StoreProduct) : ChangeSet :=
  let old_set : Finset String := old_products.toFinset
  let new_set : Finset String := (new_products.map StoreProduct.name).toFinset
  let added := new_set \ old_set
  let removed := old_set \ new_set
  { added_products := added
    removed_products := removed
    added_count := added.card
    removed_count := removed.card
    has_changes := decide (0 < added.card) || decide (0 < removed.card) }

/-- Claim C5: `detect_store_changes` is a pure name-keyed set difference —
`added_products` is exactly the set of new names not among the old names,
`removed_products` exactly the old names absent from the new pull, and on
old `{"A","B"}` versus new `[{"name":"A"},{"name":"C"}]` it yields
`added = {"C"}`, `removed = {"B"}`, `has_changes = True`. -/
theorem detect_store_changes_set_difference :
    (∀ (old_products : List String) (new_products : List StoreProduct) (x : String),
        (x ∈ (detect_store_changes old_products new_products).added_products ↔
          x ∈ new_products.map StoreProduct.name ∧ x ∉ old_products) ∧
        (x ∈ (detect_store_changes old_products new_products).removed_products ↔
          x ∈ old_products ∧ x ∉ new_products.map StoreProduct.name)) ∧
    (detect_store_changes ["A", "B"] [⟨"A"⟩, ⟨"C"⟩]).added_products = {"C"} ∧
    (detect_store_changes ["A", "B"] [⟨"A"⟩, ⟨"C"⟩]).removed_products = {"B"} ∧
    (detect_store_changes ["A", "B"] [⟨"A"⟩, ⟨"C"⟩]).has_changes = true := by
  refine ⟨fun old_products new_products x => ?_, by decide, by decide, by decide⟩
  constructor
  · simp [detect_store_changes, Finset.mem_sdiff, List.mem_toFinset]
  · simp [detect_store_changes, Finset.mem_sdiff, List.mem_toFinset]

/-- Claim C6: `detect_store_changes` is idempotent — when the stored
name snapshot already equals (as a set) the names of the new pull, both
`added_count` and `removed_count` are `0`. -/
theorem detect_store_changes_idempotent
    (old_products : List String) (new_products : List StoreProduct)
    (h : old_products.toFinset = (new_products.map StoreProduct.name).toFinset) :
    (detect_store_changes old_products new_products).added_count = 0 ∧
    (detect_store_changes old_products new_products).removed_count = 0 := by
  simp [detect_store_changes, h, Finset.sdiff_self]

/-- Witness for C6 at a concrete snapshot whose old names coincide with
the new pull's names. -/
theorem detect_store_changes_idempotent_witness :
    (detect_store_changes ["A", "B"] [⟨"B"⟩, ⟨"A"⟩]).added_count = 0 ∧
    (detect_store_changes ["A", "B"] [⟨"B"⟩, ⟨"A"⟩]).removed_count = 0 :=
  detect_store_changes_idempotent ["A", "B"] [⟨"B"⟩, ⟨"A"⟩] (by decide)

/-- Claim C10: the `has_changes` flag is `True` exactly when something was
added or something was removed; in particular a removal-only difference
(old `["A","B"]`, new `[{"name":"A"}]`) still reports `has_changes = True`
with `added_count = 0`. -/
theorem detect_store_changes_has_changes_iff :
    (∀ (old_products : List String) (new_products : List StoreProduct),
        (detect_store_changes old_products new_products).has_changes = true ↔
          0 < (detect_store_changes old_products new_products).added_count ∨
          0 < (detect_store_changes old_products new_products).removed_count) ∧
    (detect_store_changes ["A", "B"] [⟨"A"⟩]).has_changes = true ∧
    (detect_store_changes ["A", "B"] [⟨"A"⟩]).added_count = 0 ∧
    (detect_store_changes ["A", "B"] [⟨"A"⟩]).removed_count = 1 := by
  refine ⟨fun old_products new_products => ?_, by decide, by decide, by decide⟩
  simp [detect_store_changes]

/-! ## Normalizer / Validator (`AIProductScanner._validate_product`) -/

/-- Clamp to `[0,100]`: Python `max(0, min(100, z))`. -/
def intClamp (z : ℤ) : ℤ :=
  max 0 (min 100 z)

/-- The `https:` completion of a protocol-relative URL performed by
`_validate_product` and `_make_basic_product`: applied only when the value
is a string starting with `//`; non-strings pass through untouched. -/
def fixProtocolRelative : PyVal → PyVal
  | .str s => if strStartsWith s "//" then .str ("https:" ++ s) else .str s
  | v => v

/-- The dict produced by a successful `_validate_product` call, with one
field per key in source order.  Keys whose value keeps its raw dynamic
type (`image_url`, `source_platforms`, `trend_data`) stay `PyVal`. -/
structure ValidatedProduct : Type where
  name : String
  image_url : PyVal
  source : String
  estimated_views : ℤ
  source_cost : ℚ
  recommended_price : ℚ
  margin_percent : ℚ
  trend_score : ℤ
  overall_score : ℤ
  competition_score : ℤ
  profit_score : ℤ
  category : String
  why_trending : String
  saturation_level : String
  active_fb_ads : ℤ
  trend_direction : String
  trend_percent : ℚ
  search_volume : ℤ
  shopify_stores : ℤ
  source_platforms : PyVal
  trend_data : PyVal

/-- `AIProductScanner._validate_product` from `ai_scanner.py`.  `none`
models both the explicit `return None` on a missing/falsy name and the
`except (ValueError, TypeError)` branch triggered when one of the numeric
coercions (`float(...)` / `int(...)`) fails; any coercion failing aborts
the whole call, so the coercions are gathered in two `match`es (the second
depends on the clamped `overall_score`, the default for the
`competition_score` and `profit_score` coercions). -/
def _validate_product (product : PyDict) : Option ValidatedProduct :=
  if !truthy (.dict product) || !truthy (dictGet product "name" .none) then Option.none
  else
    match pyFloat (pyOr (dictGet product "source_cost" (.int 0)) (.int 0)),
        pyFloat (pyOr (dictGet product "recommended_price" (.int 0)) (.int 0)),
        pyFloat (pyOr (dictGet product "margin_percent" (.int 0)) (.int 0)),
        pyInt (pyOr (dictGet product "overall_score" (.int 50)) (.int 50)),
        pyInt (pyOr (dictGet product "trend_score" (.int 50)) (.int 50)) with
    | some source_cost, some recommended_price, some margin_raw, some overall_raw, some trend_raw =>
      match pyInt (pyOr (dictGet product "competition_score" (.int (intClamp overall_raw)))
              (.int (intClamp overall_raw))),
          pyInt (pyOr (dictGet product "profit_score" (.int (intClamp overall_raw)))
              (.int (intClamp overall_raw))),
          pyInt (pyOr (dictGet product "estimated_views" (.int 0)) (.int 0)),
          pyInt (pyOr (dictGet product "active_fb_ads" (.int 0)) (.int 0)),
          pyFloat (pyOr (dictGet product "trend_percent" (.int 0)) (.int 0)),
          pyInt (pyOr (dictGet product "search_volume" (.int 0)) (.int 0)),
          pyInt (pyOr (dictGet product "shopify_stores" (.int 0)) (.int 0)) with
      | some competition_raw, some profit_raw, some estimated_views, some active_fb_ads,
          some trend_percent, some search_volume, some shopify_stores =>
        some
          { name := (pyStr (dictGet product "name" (.str "Unknown"))).take 100
            image_url := fixProtocolRelative (dictGet product "image_url" (.str ""))
            source := pyStr (dictGet product "source" (.str "unknown"))
            estimated_views := estimated_views
            source_cost := source_cost
            recommended_price := recommended_price
            margin_percent :=
              if margin_raw = 0 ∧ 0 < source_cost ∧ source_cost < recommended_price then
                pyRoundTo ((recommended_price - source_cost) / recommended_price * 100) 1
              else margin_raw
            trend_score := intClamp trend_raw
            overall_score := intClamp overall_raw
            competition_score := intClamp competition_raw
            profit_score := intClamp profit_raw
            category := (pyStr (dictGet product "category" (.str "General"))).take 50
            why_trending := (pyStr (dictGet product "why_trending" (.str ""))).take 200
            saturation_level := pyStr (dictGet product "saturation_level" (.str "medium"))
            active_fb_ads := active_fb_ads
            trend_direction := pyStr (dictGet product "trend_direction" (.str "stable"))
            trend_percent := trend_percent
            search_volume := search_volume
            shopify_stores := shopify_stores
            source_platforms := dictGet product "source_platforms"
              (.list [.str (pyStr (dictGet product "source" (.str "unknown")))])
            trend_data := dictGet product "trend_data" (.dict []) }
      | _, _, _, _, _, _, _ => Option.none
    | _, _, _, _, _ => Option.none

/-- Counterexample to claim C1: a raw dict whose `name` is present and
non-empty can still be rejected — `float("abc")` raises `ValueError`, the
`except (ValueError, TypeError)` branch fires, and `_validate_product`
returns `None` rather than a candidate record. -/
theorem validate_product_nonnull_refuted :
    truthy (dictGet [("name", PyVal.str "Widget"), ("source_cost", PyVal.str "abc")]
        "name" .none) = true ∧
    _validate_product [("name", PyVal.str "Widget"), ("source_cost", PyVal.str "abc")]
        = Option.none := by
  exact ⟨by rfl, by rfl⟩

/-- Claim C1 (amended): whenever `_validate_product` does return a record
— in particular whenever the name is present/non-empty and every numeric
coercion succeeds — the four score fields `trend_score`, `overall_score`,
`competition_score` and `profit_score` are integers clamped to `[0,100]`. -/
theorem validate_product_score_bounds (product : PyDict) (r : ValidatedProduct)
    (h : _validate_product product = some r) :
    0 ≤ r.trend_score ∧ r.trend_score ≤ 100 ∧
    0 ≤ r.overall_score ∧ r.overall_score ≤ 100 ∧
    0 ≤ r.competition_score ∧ r.competition_score ≤ 100 ∧
    0 ≤ r.profit_score ∧ r.profit_score ≤ 100 := by
  unfold _validate_product at h
  split at h
  · exact absurd h (by simp)
  · split at h
    · split at h
      · injection h with h
        subst h
        refine ⟨?_, ?_, ?_, ?_, ?_, ?_, ?_, ?_⟩ <;>
          simp only [intClamp] <;> omega
      · exact absurd h (by simp)
    · exact absurd h (by simp)

/-- Sample input for the validator: a raw dict carrying only a name. -/
def validateSample : PyDict := [("name", PyVal.str "Mug")]

/-- The record `_validate_product` produces on `validateSample`. -/
def validateSampleOut : ValidatedProduct :=
  { name := "Mug"
    image_url := .str ""
    source := "unknown"
    estimated_views := 0
    source_cost := 0
    recommended_price := 0
    margin_percent := 0
    trend_score := 50
    overall_score := 50
    competition_score := 50
    profit_score := 50
    category := "General"
    why_trending := ""
    saturation_level := "medium"
    active_fb_ads := 0
    trend_direction := "stable"
    trend_percent := 0
    search_volume := 0
    shopify_stores := 0
    source_platforms := .list [.str "unknown"]
    trend_data := .dict [] }

/-- Witness for the amended C1: the score bounds instantiated on the
record `_validate_product` returns for `validateSample`. -/
theorem validate_product_score_bounds_witness :
    0 ≤ validateSampleOut.trend_score ∧ validateSampleOut.trend_score ≤ 100 ∧
    0 ≤ validateSampleOut.overall_score ∧ validateSampleOut.overall_score ≤ 100 ∧
    0 ≤ validateSampleOut.competition_score ∧ validateSampleOut.competition_score ≤ 100 ∧
    0 ≤ validateSampleOut.profit_score ∧ validateSampleOut.profit_score ≤ 100 :=
  validate_product_score_bounds validateSample validateSampleOut (by rfl)

/-- Claim C4: when the parsed `source_cost` is positive, the parsed
`recommended_price` exceeds it, and the supplied `margin_percent` is `0`
or absent (its coercion yields `0`), the validator back-fills
`margin_percent = round((price - cost) / price * 100, 1)`. -/
theorem validate_product_margin_backfill (product : PyDict) (r : ValidatedProduct)
    (h : _validate_product product = some r)
    (hc : 0 < r.source_cost)
    (hp : r.source_cost < r.recommended_price)
    (hm : pyFloat (pyOr (dictGet product "margin_percent" (.int 0)) (.int 0)) = some 0) :
    r.margin_percent =
      pyRoundTo ((r.recommended_price - r.source_cost) / r.recommended_price * 100) 1 := by
  unfold _validate_product at h
  split at h
  · exact absurd h (by simp)
  · split at h
    · split at h
      · injection h with h
        subst h
        rename pyFloat (pyOr (dictGet product "margin_percent" (PyVal.int 0))
          (PyVal.int 0)) = some _ => hmargin
        rw [hmargin] at hm
        injection hm with hm
        simp only at hc hp ⊢
        rw [hm, if_pos ⟨rfl, hc, hp⟩]
      · exact absurd h (by simp)
    · exact absurd h (by simp)

/-- Input for the C4 witness: cost 5, price 20, no supplied margin. -/
def marginSample : PyDict :=
  [("name", PyVal.str "Gadget"), ("source_cost", PyVal.float 5),
   ("recommended_price", PyVal.float 20)]

/-- Record produced by `_validate_product` on `marginSample`; its margin
is the back-filled `round((20 - 5) / 20 * 100, 1)` (which norm_num
evaluates to `75`, see `marginSampleOut_margin_value`). -/
def marginSampleOut : ValidatedProduct :=
  { validateSampleOut with
    name := "Gadget"
    source_cost := 5
    recommended_price := 20
    margin_percent := pyRoundTo (((20 : ℚ) - 5) / 20 * 100) 1 }

/-- The back-filled margin on `marginSample` is the concrete value `75`. -/
theorem marginSampleOut_margin_value : marginSampleOut.margin_percent = 75 := by
  have h1 : ((20 : ℚ) - 5) / 20 * 100 = 75 := by norm_num
  have h2 : (75 : ℚ) * (10 : ℚ) ^ (1 : ℕ) = 750 := by norm_num
  have h3 : roundHalfEven 750 = 750 := by
    rw [roundHalfEven]
    norm_num
  rw [marginSampleOut, pyRoundTo, h1, h2, h3]
  norm_num

/-- Witness for C4: the margin back-fill equation instantiated on
`marginSample`. -/
theorem validate_product_margin_backfill_witness :
    marginSampleOut.margin_percent =
      pyRoundTo ((marginSampleOut.recommended_price - marginSampleOut.source_cost) /
        marginSampleOut.recommended_price * 100) 1 :=
  validate_product_margin_backfill marginSample marginSampleOut (by rfl)
    (by decide) (by decide) (by rfl)

/-! ## Storefront inventory reader (`scrape_shopify_store` pagination) -/

/-- Outcome of one `GET {store_url}/products.json?page={page}&limit=250`
request: `fail` covers a non-200 status as well as a transport/JSON
exception (both `break` the loop), `ok ps` is the parsed `"products"`
list of that page. -/
inductive PageFetch : Type where
  | fail : PageFetch
  | ok (products : List PyDict) : PageFetch

/-- The `while page <= 10` pagination loop of `scrape_shopify_store` in
`competitor_spy.py`, accumulating `all_products`.  A failed page or an
empty page breaks; after extending with a page's products the loop also
breaks when that page held fewer than 30 items.  `fuel` is the structural
recursion bound; the caller supplies `fuel = 10`, which coincides with the
`page <= 10` guard. -/
def collect_pages (fetch : ℕ → PageFetch) : ℕ → ℕ → List PyDict
  | 0, _ => []
  | fuel + 1, page =>
    if page ≤ 10 then
      match fetch page with
      | .fail => []
      | .ok ps =>
        if ps.isEmpty then []
        else ps ++ (if ps.length < 30 then [] else collect_pages fetch fuel (page + 1))
    else []

/-- `all_products` as accumulated by `scrape_shopify_store`: the paginated
catalog read starting at page 1.  The post-loop reshaping emits exactly
one entry of `result["products"]` per accumulated raw product, so the
result's product count equals this list's length. -/
def scrape_shopify_store_all_products (fetch : ℕ → PageFetch) : List PyDict :=
  collect_pages fetch 10 1

/-- A store whose catalog endpoint returns 31 products on every page.
The code requests `limit=250`, so real pages can carry up to 250 items;
31 (≥ the 30-item continue-threshold) already breaks the claimed cap. -/
def fullCatalogFetch : ℕ → PageFetch :=
  fun _ => PageFetch.ok (List.replicate 31 [("title", PyVal.str "p")])

/-- Claim C8 (code bug): on a store serving 31 products per page the loop
accumulates 10 pages × 31 = 310 > 300 products; with the `limit=250` the
code itself requests, up to 2500 accumulate.  This contradicts the spec's
"page cap (10 pages / 300 items)" and the code's own
`# Max 10 pages (300 products)` comment. -/
theorem scrape_shopify_store_cap_violation :
    (scrape_shopify_store_all_products fullCatalogFetch).length = 310 ∧
    300 < (scrape_shopify_store_all_products fullCatalogFetch).length := by
  have h : (scrape_shopify_store_all_products fullCatalogFetch).length = 310 := by decide
  exact ⟨h, by rw [h]; decide⟩

/-! ## Image Resolver (`_enrich_images` in `ai_scanner.py`)

The network lookup `_fetch_product_image(name)` is passed in as an oracle
`fetchImg : PyVal → String` (it swallows all its own exceptions and
returns `""` on failure, so an arbitrary returned string covers every
behaviour).  The `asyncio.Semaphore(5)` only throttles; `asyncio.gather`
keeps input order and `return_exceptions=True` plus the `isinstance(r,
dict)` filter drop the products whose enrichment raised, which `filterMap`
models. -/

/-- The per-product body `_enrich_one` of `_enrich_images`.  `none` models
the `TypeError` captured by `gather` when `image_url` is a truthy
non-string (the `"google.com/search" in img` test raises).  A falsy
`image_url` short-circuits `not img` and goes straight to the lookup. -/
def _enrich_one (fetchImg : PyVal → String) (p : PyDict) : Option PyDict :=
  if !truthy (dictGet p "image_url" (.str "")) then
    some (if fetchImg (dictGet p "name" (.str "")) ≠ "" then
        setKey p "image_url" (.str (fetchImg (dictGet p "name" (.str "")))) else p)
  else
    match dictGet p "image_url" (.str "") with
    | .str s =>
      if strContains s "google.com/search" || decide (s.length < 10) ||
          strStartsWith s "data:" then
        some (if fetchImg (dictGet p "name" (.str "")) ≠ "" then
            setKey p "image_url" (.str (fetchImg (dictGet p "name" (.str "")))) else p)
      else if strStartsWith s "//" then
        some (setKey p "image_url" (.str ("https:" ++ s)))
      else some p
    | _ => Option.none

/-- `_enrich_images(products)`: every product is enriched, in order;
products whose enrichment raised are dropped. -/
def _enrich_images (fetchImg : PyVal → String) (products : List PyDict) : List PyDict :=
  products.filterMap (_enrich_one fetchImg)

/-- An `image_url` the resolver must leave alone per the amended C7: a
string of plausible length with an `https://` scheme that is not a Google
search redirect. -/
def goodImage (p : PyDict) : Prop :=
  ∃ s : String, dictGet p "image_url" (.str "") = .str s ∧
    strStartsWith s "https://" = true ∧ 10 ≤ s.length ∧
    strContains s "google.com/search" = false

/-- An `https://`-prefixed string cannot be `data:`- or `//`-prefixed and
is non-empty. -/
theorem strStartsWith_https_excludes {s : String}
    (h : strStartsWith s "https://" = true) :
    strStartsWith s "data:" = false ∧ strStartsWith s "//" = false ∧ s ≠ "" := by
  unfold strStartsWith at h ⊢
  rw [List.isPrefixOf_iff_prefix] at h
  obtain ⟨t, ht⟩ := h
  refine ⟨?_, ?_, ?_⟩
  · rw [← ht]; rfl
  · rw [← ht]; rfl
  · intro he
    subst he
    simp at ht

/-- Updating one key leaves lookups of every other key unchanged. -/
theorem pyGet_setKey_ne (d : PyDict) (k k' : String) (v : PyVal) (h : k' ≠ k) :
    pyGet (setKey d k v) k' = pyGet d k' := by
  induction d with
  | nil =>
    have hkv : (k == k') = false := beq_eq_false_iff_ne.mpr (fun hkk => h hkk.symm)
    simp [setKey, pyGet, List.find?, hkv]
  | cons kv rest ih =>
    by_cases hk : kv.1 == k
    · simp only [setKey, hk, if_true, pyGet, List.find?]
      have hkv : (k == k') = false := by
        exact beq_eq_false_iff_ne.mpr (fun hkk => h hkk.symm)
      have hkv' : (kv.1 == k') = false := by
        rw [beq_iff_eq] at hk
        subst hk
        exact hkv
      rw [hkv, hkv']
    · simp only [setKey, hk, if_false, pyGet, List.find?]
      by_cases hkv : kv.1 == k'
      · rw [hkv]
      · rw [Bool.not_eq_true] at hkv
        rw [hkv]
        exact ih

/-- A product with a valid `https://` image URL passes through
`_enrich_one` completely unchanged. -/
theorem enrich_one_keeps_good (fetchImg : PyVal → String) (p : PyDict)
    (hp : goodImage p) : _enrich_one fetchImg p = some p := by
  obtain ⟨s, hs, hpre, hlen, hg⟩ := hp
  obtain ⟨hdata, hslash, hne⟩ := strStartsWith_https_excludes hpre
  have htr : truthy (PyVal.str s) = true := by simp [truthy, hne]
  have hlt : decide (s.length < 10) = false := by simp [Nat.not_lt, hlen]
  rw [_enrich_one, hs, htr]
  simp only [Bool.not_true, Bool.false_eq_true, if_false, hg, hlt, hdata,
    Bool.or_false, Bool.false_or, hslash]

/-- Claim C7 (amended): (a) if every product's `image_url` is an
`https://` URL of length ≥ 10 that is not a Google-search redirect, the
Image Resolver is the identity — in particular each such URL is kept
exactly; (b) for every product the resolver returns, every key other than
`image_url` is unchanged. -/
theorem enrich_images_preserves :
    (∀ (fetchImg : PyVal → String) (products : List PyDict),
        (∀ p ∈ products, goodImage p) →
        _enrich_images fetchImg products = products) ∧
    (∀ (fetchImg : PyVal → String) (p q : PyDict),
        _enrich_one fetchImg p = some q →
        ∀ k : String, k ≠ "image_url" → pyGet q k = pyGet p k) := by
  constructor
  · intro fetchImg products hall
    induction products with
    | nil => rfl
    | cons p rest ih =>
      have hp := hall p (List.mem_cons_self p rest)
      have hrest := ih (fun q hq => hall q (List.mem_cons_of_mem p hq))
      simp [_enrich_images, List.filterMap_cons, enrich_one_keeps_good fetchImg p hp]
      simpa [_enrich_images] using hrest
  · intro fetchImg p q h k hk
    rw [_enrich_one] at h
    split at h
    · injection h with h
      subst h
      split
      · exact pyGet_setKey_ne p "image_url" k _ hk
      · rfl
    · split at h
      · rename_i s
        split at h
        · injection h with h
          subst h
          split
          · exact pyGet_setKey_ne p "image_url" k _ hk
          · rfl
        · split at h
          · injection h with h
            subst h
            exact pyGet_setKey_ne p "image_url" k _ hk
          · injection h with h
            subst h
            rfl
      · exact absurd h (by simp)

/-- A raw product whose `image_url` is an https Google-search redirect. -/
def googleImageProduct : PyDict :=
  [("name", PyVal.str "Mug"),
   ("image_url", PyVal.str "https://www.google.com/search?q=mug"),
   ("price", PyVal.int 5)]

/-- Counterexample to claim C7 as stated: an `image_url` that starts with
`https://` and has length ≥ 10 is nevertheless replaced when it contains
`google.com/search` and the secondary lookup finds an image, and so is not
kept in the output. -/
theorem enrich_images_replaces_google_https :
    strStartsWith "https://www.google.com/search?q=mug" "https://" = true ∧
    10 ≤ ("https://www.google.com/search?q=mug").length ∧
    _enrich_images (fun _ => "https://ae01.alicdn.com/images/mug.jpg")
        [googleImageProduct] =
      [[("name", PyVal.str "Mug"),
        ("image_url", PyVal.str "https://ae01.alicdn.com/images/mug.jpg"),
        ("price", PyVal.int 5)]] := by
  exact ⟨by decide, by decide, by rfl⟩

/-- A raw product with a plausible non-Google https image URL. -/
def validImageProduct : PyDict :=
  [("name", PyVal.str "Lamp"),
   ("image_url", PyVal.str "https://cdn.example.com/lamp.jpg")]

/-- Witness for the amended C7: the resolver leaves a product with a
valid https image URL untouched. -/
theorem enrich_images_preserves_witness :
    _enrich_images (fun _ => "") [validImageProduct] = [validImageProduct] :=
  enrich_images_preserves.1 (fun _ => "") [validImageProduct]
    (by
      intro p hp
      rw [List.mem_singleton] at hp
      subst hp
      exact ⟨"https://cdn.example.com/lamp.jpg", rfl, by decide, by decide, by decide⟩)

/-! ## Heuristic Fallback Scorer (`AIProductScanner._make_basic_product`) -/

/-- `str(raw.get("source", "unknown"))`. -/
def rawSource (raw : PyDict) : String :=
  pyStr (dictGet raw "source" (.str "unknown"))

/-- `str(raw.get("name", "Unknown"))[:100]`. -/
def rawName (raw : PyDict) : String :=
  (pyStr (dictGet raw "name" (.str "Unknown"))).take 100

/-- `raw.get("image_url", "")` with the `https:` completion of a
protocol-relative string. -/
def rawImage (raw : PyDict) : PyVal :=
  fixProtocolRelative (dictGet raw "image_url" (.str ""))

/-- `source_cost = price * 0.3 if source == "amazon" and price > 0 else
price`. -/
def basicSourceCost (source : String) (price : ℚ) : ℚ :=
  if source = "amazon" ∧ 0 < price then price * 0.3 else price

/-- `recommended_price = price if source == "amazon" else price * 3 if
price > 0 else 0`. -/
def basicRecommendedPrice (source : String) (price : ℚ) : ℚ :=
  if source = "amazon" then price else if 0 < price then price * 3 else 0

/-- The threshold scoring of `_make_basic_product`: orders above 1000 give
a base 70 plus an order bucket, capped at 95; else growth above 100 gives
a base 60 plus a growth bucket, capped at 90; else 50.  Python `//` is
floor division, i.e. `Int.fdiv`. -/
def basicOverallScore (orders growth : ℤ) : ℤ :=
  if 1000 < orders then min 95 (70 + Int.fdiv orders 500)
  else if 100 < growth then min 90 (60 + Int.fdiv growth 50)
  else 50

/-- The dict literal returned by `_make_basic_product`, with the locals
(`price`-derived costs, scores, metric bag) passed in. -/
def basicProductDict (now name source : String) (image_url : PyVal)
    (trend_data : PyDict) (views : ℤ) (source_cost recommended_price margin : ℚ)
    (overall growth : ℤ) : PyDict :=
  [("name", .str name),
   ("image_url", image_url),
   ("source", .str source),
   ("estimated_views", .int views),
   ("source_cost", .float (pyRoundTo source_cost 2)),
   ("recommended_price", .float (pyRoundTo recommended_price 2)),
   ("margin_percent", .float margin),
   ("trend_score", .int (min 100 (max 20 overall))),
   ("overall_score", .int overall),
   ("competition_score", .int 50),
   ("profit_score", .int 50),
   ("category", .str (pyStr (dictGet trend_data "category" (.str "General")))),
   ("why_trending", .str ("Trending on " ++ source)),
   ("saturation_level", .str "medium"),
   ("active_fb_ads", .int 0),
   ("trend_direction", .str (pyStr (dictGet trend_data "trend_direction"
       (.str (if 0 < growth then "up" else "stable"))))),
   ("trend_percent", .float (growth : ℚ)),
   ("search_volume", .int 0),
   ("shopify_stores", .int 0),
   ("source_platforms", .list [.str source]),
   ("trend_data", .dict trend_data),
   ("discovered_at", .str now),
   ("ai_enriched", .bool false)]

/-- `AIProductScanner._make_basic_product` from `ai_scanner.py`.  `none`
models the uncaught exceptions of that function: `trend_data` not a dict
(`AttributeError` on `.get`), a failing numeric coercion
(`ValueError`/`TypeError`), or `recommended_price == 0` while
`recommended_price > source_cost` (`ZeroDivisionError` in the margin
expression, possible when the scraped price is negative). -/
def _make_basic_product (now : String) (raw : PyDict) : Option PyDict :=
  match dictGet raw "trend_data" (.dict []) with
  | .dict trend_data =>
    match pyFloat (pyOr (dictGet trend_data "price"
            (dictGet trend_data "current_price" (.int 0))) (.int 0)),
        pyInt (pyOr (dictGet trend_data "orders_30d" (.int 0)) (.int 0)),
        pyInt (pyOr (dictGet trend_data "growth_percent"
            (dictGet trend_data "growth_rate" (.int 0))) (.int 0)),
        pyInt (pyOr (dictGet trend_data "views"
            (dictGet trend_data "video_count" (.int 0))) (.int 0)) with
    | some price, some orders, some growth, some views =>
      if basicSourceCost (rawSource raw) price <
          basicRecommendedPrice (rawSource raw) price then
        if basicRecommendedPrice (rawSource raw) price = 0 then Option.none
        else
          some (basicProductDict now (rawName raw) (rawSource raw) (rawImage raw)
            trend_data views
            (basicSourceCost (rawSource raw) price)
            (basicRecommendedPrice (rawSource raw) price)
            (pyRoundTo ((basicRecommendedPrice (rawSource raw) price -
                basicSourceCost (rawSource raw) price) /
              basicRecommendedPrice (rawSource raw) price * 100) 1)
            (basicOverallScore orders growth) growth)
      else
        some (basicProductDict now (rawName raw) (rawSource raw) (rawImage raw)
          trend_data views
          (basicSourceCost (rawSource raw) price)
          (basicRecommendedPrice (rawSource raw) price)
          0 (basicOverallScore orders growth) growth)
    | _, _, _, _ => Option.none
  | _ => Option.none

/-- Key `k` of `d` holds an integer score within `[0,100]`. -/
def scoreKeyBounded (d : PyDict) (k : String) : Prop :=
  ∃ n : ℤ, pyGet d k = some (.int n) ∧ 0 ≤ n ∧ n ≤ 100

/-- The four score fields of a product dict are integers in `[0,100]`. -/
def scoreFieldsBounded (d : PyDict) : Prop :=
  scoreKeyBounded d "trend_score" ∧ scoreKeyBounded d "overall_score" ∧
  scoreKeyBounded d "competition_score" ∧ scoreKeyBounded d "profit_score"

/-- The heuristic overall score always lands in `[0,100]` (in fact in
`[50,95]`). -/
theorem basicOverallScore_bounds (orders growth : ℤ) :
    0 ≤ basicOverallScore orders growth ∧ basicOverallScore orders growth ≤ 100 := by
  unfold basicOverallScore
  split
  · rename_i h
    have hd : 0 ≤ Int.fdiv orders 500 := Int.fdiv_nonneg (by omega) (by omega)
    omega
  · split
    · rename_i h
      have hd : 0 ≤ Int.fdiv growth 50 := Int.fdiv_nonneg (by omega) (by omega)
      omega
    · omega

/-- Every dict `basicProductDict` builds has its four score fields bounded,
provided the overall score it is given is. -/
theorem basicProductDict_scores_bounded (now name source : String) (image_url : PyVal)
    (trend_data : PyDict) (views : ℤ) (source_cost recommended_price margin : ℚ)
    (overall growth : ℤ) (h0 : 0 ≤ overall) (h1 : overall ≤ 100) :
    scoreFieldsBounded (basicProductDict now name source image_url trend_data views
      source_cost recommended_price margin overall growth) := by
  refine ⟨⟨min 100 (max 20 overall), rfl, by omega, by omega⟩,
    ⟨overall, rfl, h0, h1⟩, ⟨50, rfl, by omega, by omega⟩, ⟨50, rfl, by omega, by omega⟩⟩

/-- Every product the heuristic fallback scorer returns has its four score
fields bounded in `[0,100]`. -/
theorem make_basic_product_scores_bounded (now : String) (raw b : PyDict)
    (h : _make_basic_product now raw = some b) : scoreFieldsBounded b := by
  unfold _make_basic_product at h
  split at h
  · split at h
    · rename_i price orders growth views hp ho hg hv
      have hov := basicOverallScore_bounds orders growth
      split at h
      · split at h
        · exact absurd h (by simp)
        · injection h with h
          subst h
          exact basicProductDict_scores_bounded _ _ _ _ _ _ _ _ _ _ _ hov.1 hov.2
      · injection h with h
        subst h
        exact basicProductDict_scores_bounded _ _ _ _ _ _ _ _ _ _ _ hov.1 hov.2
    · exact absurd h (by simp)
  · exact absurd h (by simp)

/-! ## Orchestrator merge (`ProductScoutEngine.run_full_scan`) and
Enrichment (`AIProductScanner.scan_trending_products`) -/

/-- The four scanner sources gathered by `ProductScoutEngine.run_full_scan`. -/
def scannerSources : List String := ["tiktok", "amazon", "aliexpress", "google_trends"]

/-- The value `ProductScoutEngine.run_full_scan` returns. -/
structure ScoutResult : Type where
  total_products : ℕ
  products : List PyDict
  source_stats : List (String × ℕ)

/-- The merge loop of `ProductScoutEngine.run_full_scan` in `scanners.py`:
`asyncio.gather(..., return_exceptions=True)` yields, per source, either
that scanner's list or its exception (`Except.error`); a list is
concatenated and counted, an exception contributes zero to the stats. -/
def ProductScoutEngine_run_full_scan
    (results : List (Except String (List PyDict))) : ScoutResult :=
  let merged := (scannerSources.zip results).foldl
    (fun acc sr =>
      match sr.2 with
      | .ok xs => (acc.1 ++ xs, acc.2 ++ [(sr.1, xs.length)])
      | .error _ => (acc.1, acc.2 ++ [(sr.1, 0)]))
    ([], [])
  { total_products := merged.1.length, products := merged.1, source_stats := merged.2 }

/-- The dict literal a `ValidatedProduct` stands for, keys in source
order. -/
def ValidatedProduct.toDict (r : ValidatedProduct) : PyDict :=
  [("name", .str r.name),
   ("image_url", r.image_url),
   ("source", .str r.source),
   ("estimated_views", .int r.estimated_views),
   ("source_cost", .float r.source_cost),
   ("recommended_price", .float r.recommended_price),
   ("margin_percent", .float r.margin_percent),
   ("trend_score", .int r.trend_score),
   ("overall_score", .int r.overall_score),
   ("competition_score", .int r.competition_score),
   ("profit_score", .int r.profit_score),
   ("category", .str r.category),
   ("why_trending", .str r.why_trending),
   ("saturation_level", .str r.saturation_level),
   ("active_fb_ads", .int r.active_fb_ads),
   ("trend_direction", .str r.trend_direction),
   ("trend_percent", .float r.trend_percent),
   ("search_volume", .int r.search_volume),
   ("shopify_stores", .int r.shopify_stores),
   ("source_platforms", r.source_platforms),
   ("trend_data", r.trend_data)]

/-- Outcome of the `_call_openai_json` round trip, which is external:
`ok` is a parsed JSON object; `badJSON` is a `json.JSONDecodeError`
(caught inside `_call_openai_json`); `apiError` is any other exception
(logged and re-`raise`d). -/
inductive AIOutcome : Type where
  | ok (response : PyDict) : AIOutcome
  | badJSON : AIOutcome
  | apiError (msg : String) : AIOutcome

/-- `AIProductScanner._call_openai_json`: a decode failure is swallowed
and becomes the empty object `{}`; every other failure propagates. -/
def _call_openai_json : AIOutcome → Except String PyDict
  | .ok response => .ok response
  | .badJSON => .ok []
  | .apiError msg => .error msg

/-- The dict `scan_trending_products` returns, one field per key that any
of its `return` statements can carry (`Option`/`Bool` fields model keys
absent from some returns; the `scanned_at` timestamp is omitted). -/
structure ScanResult : Type where
  success : Bool
  products : List PyDict
  count : ℕ
  source_stats : Option (List (String × ℕ))
  raw_products_scraped : Option ℕ
  message : Option String
  ai_enrichment_failed : Bool
  error : Option String

/-- The `for p in products` validation loop of `scan_trending_products`:
validated products are decorated with `discovered_at`/`ai_enriched` and
kept in order; a `None` from the validator is dropped; a truthy non-dict
element raises (`AttributeError` on `.get` inside `_validate_product`,
uncaught there), which aborts the whole `try` block. -/
def validateLoop (now : String) : List PyVal → Except String (List PyDict)
  | [] => .ok []
  | p :: rest =>
    match p with
    | .dict d =>
      match _validate_product d with
      | some r => (validateLoop now rest).map
          (fun tail => setKey (setKey r.toDict "discovered_at" (.str now))
            "ai_enriched" (.bool true) :: tail)
      | Option.none => validateLoop now rest
    | v => if truthy v then .error "AttributeError" else validateLoop now rest

/-- The `for p in raw_products[:10]` loop of the `except` branch: basic
products accumulate in order and any exception aborts the whole scan. -/
def collectBasics (now : String) : List PyDict → Option (List PyDict)
  | [] => some []
  | r :: rest =>
    match _make_basic_product now r with
    | some b => (collectBasics now rest).map (fun bs => b :: bs)
    | Option.none => Option.none

/-- The `except Exception` branch of `scan_trending_products`: with raw
scraped data present, the heuristic fallback products are returned with
`ai_enrichment_failed=True`; with none (unreachable from the call site,
kept for fidelity), a `success=False` error dict. -/
def enrich_fallback (raw_products : List PyDict) (source_stats : List (String × ℕ))
    (now : String) (e : String) : Option ScanResult :=
  if raw_products.isEmpty then
    some { success := false, products := [], count := 0, source_stats := Option.none,
           raw_products_scraped := Option.none, message := Option.none,
           ai_enrichment_failed := false, error := some e }
  else
    match collectBasics now (raw_products.take 10) with
    | some basics =>
      some { success := true, products := basics, count := basics.length,
             source_stats := some source_stats, raw_products_scraped := Option.none,
             message := Option.none, ai_enrichment_failed := true, error := Option.none }
    | Option.none => Option.none

/-- `AIProductScanner.scan_trending_products` from `ai_scanner.py`, with
its external interactions passed in: `raw_products`/`source_stats` are
what `ProductScoutEngine.run_full_scan()` produced (both empty when the
scout itself raised), `ai` is the reasoning-service outcome, `fetchImg`
the image-lookup oracle and `now` the timestamp.  `none` models an
uncaught exception.  The empty-scrape early return carries the explicit
no-data message; a non-list `"products"` value in the AI response raises
inside the `try` and lands in the fallback. -/
def scan_trending_products (raw_products : List PyDict)
    (source_stats : List (String × ℕ)) (ai : AIOutcome)
    (fetchImg : PyVal → String) (now : String) : Option ScanResult :=
  if raw_products.isEmpty then
    some { success := true, products := [], count := 0,
           source_stats := some source_stats, raw_products_scraped := some 0,
           message := some "Scrapers could not reach external sources. Try again later or check your network connection.",
           ai_enrichment_failed := false, error := Option.none }
  else
    match _call_openai_json ai with
    | .ok result =>
      match dictGet result "products" (.list []) with
      | .list ps =>
        match validateLoop now ps with
        | .ok validated =>
          some { success := true,
                 products := _enrich_images fetchImg validated,
                 count := (_enrich_images fetchImg validated).length,
                 source_stats := some source_stats,
                 raw_products_scraped := some raw_products.length,
                 message := Option.none, ai_enrichment_failed := false,
                 error := Option.none }
        | .error e => enrich_fallback raw_products source_stats now e
      | _ => enrich_fallback raw_products source_stats now "TypeError"
    | .error e => enrich_fallback raw_products source_stats now e

/-- Claim C3: when every collector returned empty — so the scout merge
yields zero products and `scan_trending_products` receives no raw data —
the scan returns `success=True`, `products=[]`, `count=0` and the explicit
no-data message, whatever the reasoning service or image oracle would have
done; nothing is fabricated. -/
theorem scan_no_data :
    (∀ (source_stats : List (String × ℕ)) (ai : AIOutcome)
        (fetchImg : PyVal → String) (now : String),
        scan_trending_products [] source_stats ai fetchImg now =
          some { success := true, products := [], count := 0,
                 source_stats := some source_stats, raw_products_scraped := some 0,
                 message := some "Scrapers could not reach external sources. Try again later or check your network connection.",
                 ai_enrichment_failed := false, error := Option.none }) ∧
    (ProductScoutEngine_run_full_scan [.ok [], .ok [], .ok [], .ok []]).products = [] ∧
    (ProductScoutEngine_run_full_scan [.ok [], .ok [], .ok [], .ok []]).total_products = 0 :=
  ⟨fun _ _ _ _ => rfl, rfl, rfl⟩

/-- A raw candidate as the TikTok collector shapes it. -/
def rawTrendingProduct : PyDict :=
  [("name", PyVal.str "LED Dog Collar"), ("source", PyVal.str "tiktok"),
   ("image_url", PyVal.str ""),
   ("trend_data", PyVal.dict [("views", PyVal.int 500000)])]

/-- Counterexample to claim C2 as stated: with one raw candidate scraped
and the reasoning-service response unparsable as JSON
(`json.JSONDecodeError`), `_call_openai_json` swallows the error and
returns `{}`, so the scan returns `success=True` with an *empty* products
list — the heuristic fallback is not used. -/
theorem scan_unparsable_json_returns_empty :
    (scan_trending_products [rawTrendingProduct] [("tiktok", 1)] .badJSON
        (fun _ => "") "T").map ScanResult.products = some [] ∧
    (scan_trending_products [rawTrendingProduct] [("tiktok", 1)] .badJSON
        (fun _ => "") "T").map ScanResult.success = some true :=
  ⟨rfl, rfl⟩

/-- `collectBasics` succeeds and accounts for each input when every
element converts. -/
theorem collectBasics_total (now : String) (l : List PyDict)
    (h : ∀ r ∈ l, (_make_basic_product now r).isSome) :
    ∃ bs, collectBasics now l = some bs ∧ bs.length = l.length ∧
      ∀ b ∈ bs, ∃ r ∈ l, _make_basic_product now r = some b := by
  induction l with
  | nil => exact ⟨[], rfl, rfl, by simp⟩
  | cons r rest ih =>
    obtain ⟨b, hb⟩ := Option.isSome_iff_exists.mp (h r (List.mem_cons_self r rest))
    obtain ⟨bs, hbs, hlen, hmem⟩ := ih (fun x hx => h x (List.mem_cons_of_mem r hx))
    refine ⟨b :: bs, ?_, by simp [hlen], ?_⟩
    · simp [collectBasics, hb, hbs]
    · intro y hy
      rcases List.mem_cons.mp hy with hy' | hy'
      · exact ⟨r, List.mem_cons_self r rest, hy' ▸ hb⟩
      · obtain ⟨x, hx, hxy⟩ := hmem y hy'
        exact ⟨x, List.mem_cons_of_mem r hx, hxy⟩

/-- Claim C2 (amended): when at least one raw candidate was scraped and
the reasoning-service *call raises* (any exception other than a JSON
decode failure), the scan still succeeds with a non-empty product list
built by the deterministic heuristic scorer, every element of which has
its four score fields in `[0,100]` — provided the heuristic conversion of
the first 10 raw candidates raises no exception (their metric bags are
numeric), which the hypothesis `hok` states. -/
theorem scan_api_failure_falls_back (raw_products : List PyDict)
    (source_stats : List (String × ℕ)) (msg now : String)
    (fetchImg : PyVal → String)
    (hne : raw_products ≠ [])
    (hok : ∀ r ∈ raw_products.take 10, (_make_basic_product now r).isSome) :
    ∃ res : ScanResult,
      scan_trending_products raw_products source_stats (.apiError msg) fetchImg now
          = some res ∧
      res.success = true ∧ res.products ≠ [] ∧ res.ai_enrichment_failed = true ∧
      ∀ p ∈ res.products, scoreFieldsBounded p := by
  have hempty : raw_products.isEmpty = false := by
    cases raw_products with
    | nil => exact absurd rfl hne
    | cons a l => rfl
  obtain ⟨bs, hbs, hlen, hmem⟩ := collectBasics_total now (raw_products.take 10) hok
  have htake : raw_products.take 10 ≠ [] := by
    cases raw_products with
    | nil => exact absurd rfl hne
    | cons a l => simp
  refine ⟨{ success := true, products := bs, count := bs.length,
            source_stats := some source_stats, raw_products_scraped := Option.none,
            message := Option.none, ai_enrichment_failed := true,
            error := Option.none }, ?_, rfl, ?_, rfl, ?_⟩
  · unfold scan_trending_products
    rw [hempty]
    show enrich_fallback raw_products source_stats now msg = _
    unfold enrich_fallback
    rw [hempty, hbs]
    rfl
  · intro hbs0
    have hb : bs = [] := hbs0
    have hlen0 : (raw_products.take 10).length = 0 := by rw [← hlen, hb]; rfl
    exact htake (List.length_eq_zero.mp hlen0)
  · intro p hp
    obtain ⟨r, hr, hrp⟩ := hmem p hp
    exact make_basic_product_scores_bounded now r p hrp

/-- Witness for the amended C2: one scraped TikTok candidate plus a
raised reasoning-service call yields the non-empty, bounded heuristic
fallback result. -/
theorem scan_api_failure_falls_back_witness :
    ∃ res : ScanResult,
      scan_trending_products [rawTrendingProduct] [("tiktok", 1)]
          (.apiError "boom") (fun _ => "") "T" = some res ∧
      res.success = true ∧ res.products ≠ [] ∧ res.ai_enrichment_failed = true ∧
      ∀ p ∈ res.products, scoreFieldsBounded p :=
  scan_api_failure_falls_back [rawTrendingProduct] [("tiktok", 1)] "boom" "T"
    (fun _ => "") (by simp)
    (by
      intro r hr
      rw [show [rawTrendingProduct].take 10 = [rawTrendingProduct] from rfl,
        List.mem_singleton] at hr
      subst hr
      rfl)

/-! ## Cadence Scheduler (`scheduler.py`)

`run_scheduled_scans` iterates the user list; per user it computes the
due-check — parsing a string `last_scan_at` with
`datetime.fromisoformat(last_scan.replace('Z', '+00:00'))`, which raises
`ValueError` on a malformed value — and, when due, calls `run_user_scan`,
whose scan body is wrapped in `try/except`.  Timestamps are rational
epoch seconds.  `parseIso` implements the common subset of
`fromisoformat` the scheduler itself writes
(`YYYY-MM-DD[THH:MM[:SS[.ffffff]]][±HH:MM]`). -/

/-- Gregorian leap year. -/
def isLeapYear (y : ℤ) : Bool :=
  (y.emod 4 == 0 && y.emod 100 != 0) || y.emod 400 == 0

/-- Length of month `m` of year `y`. -/
def daysInMonth (y : ℤ) (m : ℕ) : ℕ :=
  if m = 2 then (if isLeapYear y then 29 else 28)
  else if m = 4 ∨ m = 6 ∨ m = 9 ∨ m = 11 then 30 else 31

/-- Days from the civil epoch 1970-01-01 (Howard Hinnant's algorithm);
`y ≥ 1` keeps every division nonnegative. -/
def daysFromCivil (y m d : ℤ) : ℤ :=
  let yAdj : ℤ := if m ≤ 2 then y - 1 else y
  let era : ℤ := yAdj.ediv 400
  let yoe : ℤ := yAdj - era * 400
  let mp : ℤ := (m + 9).emod 12
  let doy : ℤ := (153 * mp + 2).ediv 5 + d - 1
  let doe : ℤ := yoe * 365 + yoe.ediv 4 - yoe.ediv 100 + doy
  era * 146097 + doe - 719468

/-- Two decimal digits. -/
def digit2 (a b : Char) : Option ℕ :=
  if a.isDigit && b.isDigit then some ((a.toNat - 48) * 10 + (b.toNat - 48)) else Option.none

/-- UTC offset suffix: empty, or `±HH:MM`; returns offset seconds. -/
def parseOffset : List Char → Option ℚ
  | [] => some 0
  | c :: o1 :: o2 :: ':' :: o3 :: o4 :: [] =>
    if c = '+' ∨ c = '-' then
      match digit2 o1 o2, digit2 o3 o4 with
      | some oh, some om =>
        if oh ≤ 23 ∧ om ≤ 59 then
          some ((if c = '-' then (-1 : ℚ) else 1) * ((oh : ℚ) * 3600 + (om : ℚ) * 60))
        else Option.none
      | _, _ => Option.none
    else Option.none
  | _ => Option.none

/-- Optional fractional-second part (1–6 digits) then offset; returns
`(fraction of a second, offset seconds)`. -/
def parseFracOfs : List Char → Option (ℚ × ℚ)
  | '.' :: rest =>
    let ds := rest.takeWhile Char.isDigit
    let tail := rest.dropWhile Char.isDigit
    if 1 ≤ ds.length ∧ ds.length ≤ 6 then
      match parseOffset tail with
      | some ofs => some ((digitsToNat ds : ℚ) / (10 : ℚ) ^ ds.length, ofs)
      | Option.none => Option.none
    else Option.none
  | cs => (parseOffset cs).map (fun ofs => (0, ofs))

/-- Time-of-day part after the date: empty, or `THH:MM`, `THH:MM±HH:MM`,
`THH:MM:SS[.ffffff][±HH:MM]`; returns UTC seconds since midnight. -/
def parseTime : List Char → Option ℚ
  | [] => some 0
  | 'T' :: h1 :: h2 :: ':' :: mi1 :: mi2 :: rest =>
    match digit2 h1 h2, digit2 mi1 mi2 with
    | some hh, some mi =>
      if hh ≤ 23 ∧ mi ≤ 59 then
        match rest with
        | ':' :: s1 :: s2 :: rest2 =>
          match digit2 s1 s2 with
          | some ss =>
            if ss ≤ 59 then
              match parseFracOfs rest2 with
              | some (fr, ofs) =>
                some ((hh : ℚ) * 3600 + (mi : ℚ) * 60 + (ss : ℚ) + fr - ofs)
              | Option.none => Option.none
            else Option.none
          | Option.none => Option.none
        | rest2 =>
          match parseOffset rest2 with
          | some ofs => some ((hh : ℚ) * 3600 + (mi : ℚ) * 60 - ofs)
          | Option.none => Option.none
      else Option.none
    | _, _ => Option.none
  | _ => Option.none

/-- `datetime.fromisoformat` on the subset the scheduler itself stores;
`none` is the `ValueError` Python raises on a malformed string.  Returns
UTC epoch seconds. -/
def parseIso (s : String) : Option ℚ :=
  match s.toList with
  | y1 :: y2 :: y3 :: y4 :: '-' :: mo1 :: mo2 :: '-' :: d1 :: d2 :: rest =>
    match digit2 y1 y2, digit2 y3 y4, digit2 mo1 mo2, digit2 d1 d2 with
    | some yh, some yl, some mo, some dd =>
      let y : ℤ := (yh : ℤ) * 100 + (yl : ℤ)
      if 1 ≤ y ∧ 1 ≤ mo ∧ mo ≤ 12 ∧ 1 ≤ dd ∧ dd ≤ daysInMonth y mo then
        match parseTime rest with
        | some secs => some ((daysFromCivil y (mo : ℤ) (dd : ℤ) : ℚ) * 86400 + secs)
        | Option.none => Option.none
      else Option.none
    | _, _, _, _ => Option.none
  | _ => Option.none

/-- Replace every occurrence of the character `target` by `rep`. -/
def replaceCharList (target : Char) (rep : List Char) : List Char → List Char
  | [] => []
  | c :: cs =>
    if c = target then rep ++ replaceCharList target rep cs
    else c :: replaceCharList target rep cs

/-- Python `s.replace(target, rep)` for a one-character pattern — the only
form the scheduler uses (`last_scan.replace('Z', '+00:00')`). -/
def strReplaceChar (s : String) (target : Char) (rep : String) : String :=
  String.mk (replaceCharList target rep.toList s.toList)

/-- The `TIER_SCAN_FREQUENCY` table with its `.get(tier, 24)` default. -/
def TIER_SCAN_FREQUENCY (tier : String) : ℕ :=
  if tier = "free" then 24
  else if tier = "sniper" then 12
  else if tier = "elite" then 6
  else if tier = "agency" then 4
  else if tier = "enterprise" then 2
  else 24

/-- The stored `last_scan_at` of a user document: absent/None, an actual
datetime (epoch seconds), or an ISO string to be parsed. -/
inductive LastScan : Type where
  | missing : LastScan
  | dt (t : ℚ) : LastScan
  | iso (s : String) : LastScan

/-- The projection of a user document that `run_scheduled_scans` reads,
plus the external outcome of the scan body (`scan_succeeds` tells whether
the `try` block of `run_user_scan` would raise). -/
structure SchedUser : Type where
  id : String
  subscription_tier : Option String
  openai_api_key : String
  last_scan_at : LastScan
  scan_succeeds : Bool

/-- The per-user due-check of `run_scheduled_scans`: no previous scan
means due; a stored timestamp is compared as
`hours_since_scan >= frequency_hours`; a malformed string raises
(`Except.error`), and that exception is *not* caught inside the loop. -/
def should_scan (now : ℚ) (u : SchedUser) : Except String Bool :=
  match u.last_scan_at with
  | .missing => .ok true
  | .dt t =>
    .ok (decide ((TIER_SCAN_FREQUENCY (u.subscription_tier.getD "free") : ℚ)
      ≤ (now - t) / 3600))
  | .iso s =>
    match parseIso (strReplaceChar s 'Z' "+00:00") with
    | some t =>
      .ok (decide ((TIER_SCAN_FREQUENCY (u.subscription_tier.getD "free") : ℚ)
        ≤ (now - t) / 3600))
    | Option.none => .error "ValueError: Invalid isoformat string"

/-- The body of `run_user_scan`'s `try` block (scanner construction, the
scan itself, persistence) — external work that either completes or
raises. -/
def run_user_scan_body (u : SchedUser) : Except String Unit :=
  if u.scan_succeeds then .ok () else .error "scan failed"

/-- `ScanScheduler.run_user_scan`: users without an OpenAI key are
skipped (returns `false` = scan body not attempted); the scan body's
exception is caught and logged, so the call itself never raises. -/
def run_user_scan (u : SchedUser) : Except String Bool :=
  if u.openai_api_key = "" then .ok false
  else
    match run_user_scan_body u with
    | .ok _ => .ok true
    | .error _ => .ok true

/-- Result of one hourly tick: ids whose scan body ran, and the uncaught
exception (if any) that aborted the loop. -/
structure SchedTick : Type where
  scanned : List String
  error : Option String

/-- `ScanScheduler.run_scheduled_scans`'s per-user loop over the queried
users: due-check, then scan.  An exception escaping the due-check (or
`run_user_scan`, which never raises) aborts the remaining users. -/
def run_scheduled_scans (now : ℚ) : List SchedUser → SchedTick
  | [] => { scanned := [], error := Option.none }
  | u :: rest =>
    match should_scan now u with
    | .error e => { scanned := [], error := some e }
    | .ok due =>
      if due then
        match run_user_scan u with
        | .error e => { scanned := [], error := some e }
        | .ok attempted =>
          { scanned := (if attempted then u.id :: (run_scheduled_scans now rest).scanned
              else (run_scheduled_scans now rest).scanned),
            error := (run_scheduled_scans now rest).error }
      else
        { scanned := (run_scheduled_scans now rest).scanned,
          error := (run_scheduled_scans now rest).error }

/-- A user whose scan body is attempted always yields `.ok true`. -/
theorem run_user_scan_attempts (u : SchedUser) (hk : u.openai_api_key ≠ "") :
    run_user_scan u = .ok true := by
  unfold run_user_scan run_user_scan_body
  rw [if_neg hk]
  by_cases hs : u.scan_succeeds <;> simp [hs]

/-- `run_user_scan` catches every scan failure: it never raises. -/
theorem run_user_scan_never_raises (u : SchedUser) :
    ∃ b, run_user_scan u = .ok b := by
  by_cases hk : u.openai_api_key = ""
  · exact ⟨false, by simp [run_user_scan, hk]⟩
  · exact ⟨true, run_user_scan_attempts u hk⟩

/-- A user document whose stored `last_scan_at` string is malformed. -/
def corruptUser : SchedUser :=
  { id := "u1", subscription_tier := some "free", openai_api_key := "sk-1",
    last_scan_at := .iso "not-a-date", scan_succeeds := true }

/-- A user with no previous scan, hence due. -/
def dueUser : SchedUser :=
  { id := "u2", subscription_tier := some "free", openai_api_key := "sk-2",
    last_scan_at := .missing, scan_succeeds := true }

/-- Counterexample to claim C9 as stated: an exception raised while
*deciding whether an account is due* (parsing `corruptUser`'s stored
`last_scan_at`) is not caught at the account boundary — it aborts the
loop, so the due `dueUser` after it is never checked or scanned. -/
theorem run_scheduled_scans_due_check_not_isolated :
    should_scan 0 dueUser = .ok true ∧
    (run_scheduled_scans 0 [corruptUser, dueUser]).scanned = [] ∧
    (run_scheduled_scans 0 [corruptUser, dueUser]).error =
      some "ValueError: Invalid isoformat string" :=
  ⟨rfl, rfl, rfl⟩

/-- Claim C9 (amended): exceptions raised while *running a scan* are
caught inside `run_user_scan` at the per-account boundary, so — as long
as every due-check itself succeeds (every stored `last_scan_at` parses) —
the loop finishes without an uncaught error and every due account with an
API key gets its scan attempted, regardless of other accounts' scan
failures.  A due-check exception, by contrast, aborts the loop
(see the counterexample). -/
theorem run_scheduled_scans_scan_failure_isolated (now : ℚ) (users : List SchedUser)
    (h : ∀ u ∈ users, (should_scan now u).isOk) :
    (run_scheduled_scans now users).error = Option.none ∧
    ∀ u ∈ users, should_scan now u = .ok true → u.openai_api_key ≠ "" →
      u.id ∈ (run_scheduled_scans now users).scanned := by
  induction users with
  | nil => exact ⟨rfl, by simp⟩
  | cons u rest ih =>
    have hu := h u (List.mem_cons_self u rest)
    obtain ⟨due, hdue⟩ : ∃ b, should_scan now u = .ok b := by
      cases hs : should_scan now u with
      | ok b => exact ⟨b, rfl⟩
      | error e => rw [hs] at hu; exact absurd hu (by simp [Except.isOk, Except.toBool])
    obtain ⟨htail1, htail2⟩ := ih (fun x hx => h x (List.mem_cons_of_mem u hx))
    cases due with
    | false =>
      unfold run_scheduled_scans
      rw [hdue]
      refine ⟨htail1, ?_⟩
      intro x hx hxdue hxkey
      rcases List.mem_cons.mp hx with hx' | hx'
      · subst hx'
        rw [hxdue] at hdue
        exact absurd (Except.ok.inj hdue) (by simp)
      · exact htail2 x hx' hxdue hxkey
    | true =>
      obtain ⟨att, hatt⟩ := run_user_scan_never_raises u
      unfold run_scheduled_scans
      rw [hdue, hatt]
      refine ⟨htail1, ?_⟩
      intro x hx hxdue hxkey
      rcases List.mem_cons.mp hx with hx' | hx'
      · subst hx'
        rw [run_user_scan_attempts x hxkey] at hatt
        have hatt' : att = true := (Except.ok.inj hatt).symm
        subst hatt'
        exact List.mem_cons_self x.id _
      · have hmem := htail2 x hx' hxdue hxkey
        cases att with
        | false => exact hmem
        | true => exact List.mem_cons_of_mem u.id hmem

/-- A due user whose scan body raises (caught). -/
def failingScanUser : SchedUser :=
  { id := "a", subscription_tier := some "free", openai_api_key := "sk-a",
    last_scan_at := .missing, scan_succeeds := false }

/-- A due user listed after the failing one. -/
def reachedUser : SchedUser :=
  { id := "b", subscription_tier := some "free", openai_api_key := "sk-b",
    last_scan_at := .missing, scan_succeeds := true }

/-- Witness for the amended C9: with a failing-scan account first in the
list, the tick still completes and both due accounts are scanned. -/
theorem run_scheduled_scans_scan_failure_isolated_witness :
    (run_scheduled_scans 0 [failingScanUser, reachedUser]).error = Option.none ∧
    ∀ u ∈ [failingScanUser, reachedUser], should_scan 0 u = .ok true →
      u.openai_api_key ≠ "" →
      u.id ∈ (run_scheduled_scans 0 [failingScanUser, reachedUser]).scanned :=
  run_scheduled_scans_scan_failure_isolated 0 [failingScanUser, reachedUser]
    (by
      intro u hu
      rcases List.mem_cons.mp hu with hu' | hu'
      · subst hu'; rfl
      · rw [List.mem_singleton] at hu'
        subst hu'; rfl)

end DropSniper
